import Mathlib

/-!
Shallow embedding of the liquidity-pool withdrawal (remove-liquidity) core of
`src/programs/marinade-finance/src/instructions/liq_pool/remove_liquidity.rs`.

Pubkeys are modelled as natural numbers; `u64` quantities as `Nat`, with an
explicit `2 ^ 64` bound exactly where the source performs a `checked_add`
whose overflow matters. Fallible Rust code returning `Result` is modelled in
`Except`; the Rust panic produced by `.unwrap()` on a failed `checked_sub`
is modelled by the distinguished outcome `Failure.panic` (a panic aborts the
transaction but is not a typed error returned to the caller). A failed
instruction rolls the whole transaction back (Solana account semantics, and
spec section 5 atomicity), so the observable post-state of a failing call is
the unchanged pre-state; `postOf` captures this.

Repository code that is referenced but not under `src/` (the `proportional`
helper from `crate::calc`, `State::check_paused`,
`LiqPool::on_lp_burn`, and the external conversion
`State::calc_lamports_from_msol_amount`) is modelled from the spec; each such
definition carries a doc comment starting `Modelled from the spec:`.
-/

namespace RemoveLiquidity

/-- Pubkeys (account identities) are modelled as naturals. -/
abbrev Identity := Nat

/-- Error codes surfaced by this instruction. The constructors
`notEnoughUserFunds`, `wrongTokenOwnerOrDelegate` (which carries the token
owner and the rejected authority, mirroring `with_pubkeys` in the source),
`calculationFailure` and `withdrawAmountIsTooLow` are the `MarinadeError`
variants named in `src`; `paused` and `divisionByZeroSupply` belong to
repository code outside `src/` and are modelled from the spec (spec names
`Paused` and `DivisionByZeroSupply`). -/
inductive MarinadeError where
  | paused
  | notEnoughUserFunds
  | wrongTokenOwnerOrDelegate (owner requester : Identity)
  | calculationFailure
  | withdrawAmountIsTooLow
  | divisionByZeroSupply
  deriving DecidableEq, Repr

/-- Every way a call can fail: a returned `MarinadeError`, a Rust panic
(`.unwrap()` on `None`), or a failure inside a CPI of the settlement phase
(system transfer, token transfer or burn rejected by the invoked program). -/
inductive Failure where
  | err (e : MarinadeError)
  | panic
  | settlement
  deriving DecidableEq, Repr

/-- The fields of an SPL `TokenAccount` read by this instruction
(`burn_from`): owner, optional delegate, delegated amount and balance. -/
structure TokenHolding where
  owner : Identity
  delegate : Option Identity
  delegatedAmount : Nat
  amount : Nat
  deriving DecidableEq, Repr

/-- Event emitted on success, field for field the `RemoveLiquidityEvent`
of the source (lines 195-206). -/
structure RemoveLiquidityEvent where
  state : Identity
  sol_leg_balance : Nat
  msol_leg_balance : Nat
  user_lp_balance : Nat
  user_sol_balance : Nat
  user_msol_balance : Nat
  lp_mint_supply : Nat
  lp_burned : Nat
  sol_out_amount : Nat
  msol_out_amount : Nat
  deriving DecidableEq, Repr

/-- Everything the instruction reads or writes: the pool state fields
(`lp_supply` is the virtual LP supply, `rent_exempt_for_token_acc`,
`min_withdraw`, the paused flag, the external conversion function and the
state key) and the balances of the involved accounts. `convert` models the
external collaborator `State::calc_lamports_from_msol_amount`, a pure
function that may fail on overflow (spec section 1, out of scope). -/
structure Ctx where
  lpSupply : Nat
  rentExemptForTokenAcc : Nat
  minWithdraw : Nat
  paused : Bool
  convert : Nat → Option Nat
  stateKey : Identity
  lpMintSupply : Nat
  burnFrom : TokenHolding
  burnFromAuthority : Identity
  userSolLamports : Nat
  userMsolAmount : Nat
  solLegLamports : Nat
  msolLegAmount : Nat

/-- Rust `u64::checked_sub`: `none` exactly when the subtrahend exceeds the
minuend (on `Nat` no truncation is needed for the defined case). -/
def checkedSub (a b : Nat) : Option Nat :=
  if b ≤ a then some (a - b) else none

/-- Rust `u64::checked_add`: `none` exactly on `u64` overflow. -/
def checkedAdd (a b : Nat) : Option Nat :=
  if a + b < 2 ^ 64 then some (a + b) else none

/-- Modelled from the spec: `crate::calc::proportional` is repository code
not under `src/`. Spec section 4.3: the payout is
`floor(tokens * balance / virtual_supply)` with integer floor division, and
a zero virtual supply fails with `DivisionByZeroSupply`. -/
def proportional (amount numerator denominator : Nat) : Except Failure Nat :=
  if denominator = 0 then .error (.err .divisionByZeroSupply)
  else .ok (amount * numerator / denominator)

/-- Modelled from the spec: `State::check_paused` is repository code not
under `src/`. Spec section 4.1: fail fast with `Paused` when the flag is
set; all subsequent steps are skipped. -/
def check_paused (paused : Bool) : Except Failure Unit :=
  if paused then .error (.err .paused) else .ok ()

/-- Modelled from the spec: `LiqPool::on_lp_burn` is repository code not
under `src/`. Spec section 4.4: after a successful burn, decrement the
virtual LP supply by the burned tokens. -/
def on_lp_burn (lpSupply tokens : Nat) : Nat :=
  lpSupply - tokens

/-- `RemoveLiquidity::check_burn_from` (source lines 67-93): if the
holding's delegate is the requesting authority, require
`tokens <= delegated_amount` (else `NotEnoughUserFunds`); else if the
authority is the owner, require `tokens <= amount` (else
`NotEnoughUserFunds`); else fail with `WrongTokenOwnerOrDelegate` carrying
the owner and the rejected authority. -/
def check_burn_from (burnFrom : TokenHolding) (authority : Identity)
    (tokens : Nat) : Except Failure Unit :=
  if burnFrom.delegate = some authority then
    if tokens ≤ burnFrom.delegatedAmount then .ok ()
    else .error (.err .notEnoughUserFunds)
  else if authority = burnFrom.owner then
    if tokens ≤ burnFrom.amount then .ok ()
    else .error (.err .notEnoughUserFunds)
  else
    .error (.err (.wrongTokenOwnerOrDelegate burnFrom.owner authority))

/-- Supply reconciliation (source lines 106-114): if the actual mint supply
exceeds the virtual `lp_supply`, only a warning is logged and the virtual
supply is kept; otherwise the virtual supply is set to the actual supply. -/
def reconciledSupply (lpSupply lpMintSupply : Nat) : Nat :=
  if lpMintSupply > lpSupply then lpSupply else lpMintSupply

/-- The two `proportional` calls of the source (lines 117-128): the
distributable base is `sol_leg_balance.checked_sub(rent_exempt_for_token_acc)
.unwrap()` — the `.unwrap()` panics when the subtraction fails — and both
payouts divide by the same (already reconciled) virtual supply. -/
def computeOuts (tokens solLegBalance rentExempt msolLegBalance supply : Nat) :
    Except Failure (Nat × Nat) :=
  match checkedSub solLegBalance rentExempt with
  | none => .error .panic
  | some distributable =>
    match proportional tokens distributable supply with
    | .error e => .error e
    | .ok solOut =>
      match proportional tokens msolLegBalance supply with
      | .error e => .error e
      | .ok msolOut => .ok (solOut, msolOut)

/-- One leg of the settlement (source lines 143-180): a transfer is issued
only when the amount is positive, and the invoked program rejects it when
the source account lacks the funds. Returns the new (leg, user) balances. -/
def transferLeg (out legBalance userBalance : Nat) :
    Except Failure (Nat × Nat) :=
  if out > 0 then
    if out ≤ legBalance then .ok (legBalance - out, userBalance + out)
    else .error .settlement
  else .ok (legBalance, userBalance)

/-- The burn CPI (source lines 182-192): the token program rejects a burn
exceeding the account balance; on success the holding balance and the mint
supply both drop by the burned amount. -/
def burnTokens (tokens : Nat) (holding : TokenHolding) (mintSupply : Nat) :
    Except Failure (TokenHolding × Nat) :=
  if tokens ≤ holding.amount then
    .ok ({ holding with amount := holding.amount - tokens },
         mintSupply - tokens)
  else .error .settlement

/-- The body of `process` after the pause and authorization gates, with the
reconciled virtual supply passed in: snapshot reads (lines 99-104), payout
computation (117-128), minimum-withdraw gate with `checked_add` and the
external conversion (130-136), the two conditional transfers (143-180), the
burn (182-192), `on_lp_burn` (193) and the event (195-206). -/
def processCalc (c : Ctx) (tokens supply : Nat) :
    Except Failure (Ctx × RemoveLiquidityEvent) :=
  match computeOuts tokens c.solLegLamports c.rentExemptForTokenAcc
      c.msolLegAmount supply with
  | .error e => .error e
  | .ok (sol_out_amount, msol_out_amount) =>
    match c.convert msol_out_amount with
    | none => .error (.err .calculationFailure)
    | some converted =>
      match checkedAdd sol_out_amount converted with
      | none => .error (.err .calculationFailure)
      | some total =>
        if total < c.minWithdraw then
          .error (.err .withdrawAmountIsTooLow)
        else
          match transferLeg sol_out_amount c.solLegLamports
              c.userSolLamports with
          | .error e => .error e
          | .ok (solLeg2, userSol2) =>
            match transferLeg msol_out_amount c.msolLegAmount
                c.userMsolAmount with
            | .error e => .error e
            | .ok (msolLeg2, userMsol2) =>
              match burnTokens tokens c.burnFrom c.lpMintSupply with
              | .error e => .error e
              | .ok (burnFrom2, lpMint2) =>
                .ok ({ c with
                        solLegLamports := solLeg2,
                        userSolLamports := userSol2,
                        msolLegAmount := msolLeg2,
                        userMsolAmount := userMsol2,
                        burnFrom := burnFrom2,
                        lpMintSupply := lpMint2,
                        lpSupply := on_lp_burn supply tokens },
                     { state := c.stateKey,
                       sol_leg_balance := c.solLegLamports,
                       msol_leg_balance := c.msolLegAmount,
                       user_lp_balance := c.burnFrom.amount,
                       user_sol_balance := c.userSolLamports,
                       user_msol_balance := c.userMsolAmount,
                       lp_mint_supply := c.lpMintSupply,
                       lp_burned := tokens,
                       sol_out_amount := sol_out_amount,
                       msol_out_amount := msol_out_amount })

/-- `RemoveLiquidity::process` (source lines 95-209): pause gate,
authorization gate, supply reconciliation, then the calculation and
settlement on the reconciled virtual supply. -/
def process (c : Ctx) (tokens : Nat) :
    Except Failure (Ctx × RemoveLiquidityEvent) :=
  match check_paused c.paused with
  | .error e => .error e
  | .ok _ =>
    match check_burn_from c.burnFrom c.burnFromAuthority tokens with
    | .error e => .error e
    | .ok _ => processCalc c tokens (reconciledSupply c.lpSupply c.lpMintSupply)

/-- Observable post-state of a call: a failing instruction aborts the whole
transaction, so every account keeps its pre-state value (spec section 5). -/
def postOf (c : Ctx) (tokens : Nat) : Ctx :=
  match process c tokens with
  | .ok (post, _) => post
  | .error _ => c

/-- The 1:1 conversion rate of the spec's example scenario. -/
def exampleConvert : Nat → Option Nat := fun x => some x

/-- The spec's example pool (section 8): virtual supply 1000 (actual mint
supply also 1000), distributable base 500 (floor 0), derivative reserve
2000, minimum withdraw 1, 1:1 conversion, owner-authorized holding. -/
def exampleCtx : Ctx :=
  { lpSupply := 1000
    rentExemptForTokenAcc := 0
    minWithdraw := 1
    paused := false
    convert := exampleConvert
    stateKey := 7
    lpMintSupply := 1000
    burnFrom := { owner := 1, delegate := none, delegatedAmount := 0,
                  amount := 300 }
    burnFromAuthority := 1
    userSolLamports := 10
    userMsolAmount := 20
    solLegLamports := 500
    msolLegAmount := 2000 }

/-- Post-state of burning 100 LP tokens in the example pool: 50 lamports and
200 mSOL move to the user, the holding and both supplies drop by 100. -/
def examplePost : Ctx :=
  { exampleCtx with
      solLegLamports := 450
      userSolLamports := 60
      msolLegAmount := 1800
      userMsolAmount := 220
      burnFrom := { owner := 1, delegate := none, delegatedAmount := 0,
                    amount := 200 }
      lpMintSupply := 900
      lpSupply := 900 }

/-- Event emitted by the example run: pre-state snapshot plus the payouts. -/
def exampleEvt : RemoveLiquidityEvent :=
  { state := 7
    sol_leg_balance := 500
    msol_leg_balance := 2000
    user_lp_balance := 300
    user_sol_balance := 10
    user_msol_balance := 20
    lp_mint_supply := 1000
    lp_burned := 100
    sol_out_amount := 50
    msol_out_amount := 200 }

/-- Inversion of a successful `processCalc`: the event is the pre-state
snapshot together with the computed payouts, and the post-state virtual
supply is the passed-in supply minus the burned tokens. -/
theorem processCalc_ok_inv {c : Ctx} {tokens supply : Nat} {post : Ctx}
    {evt : RemoveLiquidityEvent}
    (h : processCalc c tokens supply = .ok (post, evt)) :
    computeOuts tokens c.solLegLamports c.rentExemptForTokenAcc
        c.msolLegAmount supply = .ok (evt.sol_out_amount, evt.msol_out_amount) ∧
    evt.state = c.stateKey ∧
    evt.sol_leg_balance = c.solLegLamports ∧
    evt.msol_leg_balance = c.msolLegAmount ∧
    evt.user_lp_balance = c.burnFrom.amount ∧
    evt.user_sol_balance = c.userSolLamports ∧
    evt.user_msol_balance = c.userMsolAmount ∧
    evt.lp_mint_supply = c.lpMintSupply ∧
    evt.lp_burned = tokens ∧
    post.lpSupply = on_lp_burn supply tokens := by
  unfold processCalc at h
  split at h
  next => simp at h
  next solOut msolOut hc =>
    split at h
    next => simp at h
    next conv hv =>
      split at h
      next => simp at h
      next total hadd =>
        split at h
        next => simp at h
        next hm =>
          split at h
          next => simp at h
          next sl2 us2 ht1 =>
            split at h
            next => simp at h
            next ml2 um2 ht2 =>
              split at h
              next => simp at h
              next bf2 lm2 hb =>
                rw [Except.ok.injEq, Prod.mk.injEq] at h
                obtain ⟨hpost, hevt⟩ := h
                subst hpost
                subst hevt
                exact ⟨hc, rfl, rfl, rfl, rfl, rfl, rfl, rfl, rfl, rfl⟩

/-- Inversion of a successful `process`: the pause and authorization gates
passed and the calculation ran on the reconciled virtual supply. -/
theorem process_ok_inv {c : Ctx} {tokens : Nat} {post : Ctx}
    {evt : RemoveLiquidityEvent} (h : process c tokens = .ok (post, evt)) :
    c.paused = false ∧
    check_burn_from c.burnFrom c.burnFromAuthority tokens = .ok () ∧
    processCalc c tokens (reconciledSupply c.lpSupply c.lpMintSupply)
      = .ok (post, evt) := by
  unfold process at h
  split at h
  next => simp at h
  next u hp =>
    split at h
    next => simp at h
    next u' ha =>
      refine ⟨?_, ?_, h⟩
      · by_contra hb
        rw [Bool.not_eq_false] at hb
        rw [check_paused, if_pos hb] at hp
        exact absurd hp (by simp)
      · cases u'
        exact ha

/-- The reconciled supply never exceeds the stored virtual supply. -/
theorem reconciledSupply_le (v mint : Nat) : reconciledSupply v mint ≤ v := by
  unfold reconciledSupply
  split
  · exact le_refl v
  · omega

/-- C3 (counterexample): the claim distinguishes an
`InsufficientDelegatedFunds` failure of the delegate branch from an
`InsufficientOwnerFunds` failure of the owner branch, but the source uses
the single error `MarinadeError::NotEnoughUserFunds` for both: a delegate
asking for 100 with allowance 50, and an owner asking for 100 with balance
50, receive the identical error value, so the two failure kinds are not
distinct as the claim states. -/
theorem auth_distinct_errors_cex :
    check_burn_from
      { owner := 1, delegate := some 2, delegatedAmount := 50,
        amount := 1000 } 2 100 = .error (.err .notEnoughUserFunds) ∧
    check_burn_from
      { owner := 1, delegate := none, delegatedAmount := 0,
        amount := 50 } 1 100 = .error (.err .notEnoughUserFunds) :=
  ⟨rfl, rfl⟩

/-- C3 (amended): authorization resolves to exactly one of three outcomes
in this order: if the holding's delegate equals the requester, it succeeds
iff tokens ≤ delegated_amount and otherwise fails with `NotEnoughUserFunds`;
else if the requester equals the holding owner, it succeeds iff
tokens ≤ balance and otherwise fails with the same `NotEnoughUserFunds`
error (the code does not distinguish the two insufficiency kinds); else it
fails with `WrongTokenOwnerOrDelegate` carrying the holding owner and the
rejected requester. -/
theorem auth_three_way (hold : TokenHolding) (requester : Identity)
    (tokens : Nat) :
    (hold.delegate = some requester →
      (tokens ≤ hold.delegatedAmount →
        check_burn_from hold requester tokens = .ok ()) ∧
      (hold.delegatedAmount < tokens →
        check_burn_from hold requester tokens
          = .error (.err .notEnoughUserFunds))) ∧
    (hold.delegate ≠ some requester → requester = hold.owner →
      (tokens ≤ hold.amount →
        check_burn_from hold requester tokens = .ok ()) ∧
      (hold.amount < tokens →
        check_burn_from hold requester tokens
          = .error (.err .notEnoughUserFunds))) ∧
    (hold.delegate ≠ some requester → requester ≠ hold.owner →
      check_burn_from hold requester tokens
        = .error (.err (.wrongTokenOwnerOrDelegate hold.owner requester))) := by
  refine ⟨fun hd => ⟨fun hle => ?_, fun hlt => ?_⟩,
          fun hd ho => ⟨fun hle => ?_, fun hlt => ?_⟩,
          fun hd ho => ?_⟩ <;>
    unfold check_burn_from
  · rw [if_pos hd, if_pos hle]
  · rw [if_pos hd, if_neg (by omega)]
  · rw [if_neg hd, if_pos ho, if_pos hle]
  · rw [if_neg hd, if_pos ho, if_neg (by omega)]
  · rw [if_neg hd, if_neg ho]

/-- C3 (witness): a requester who is neither delegate nor owner is rejected
with the error carrying the owner and the requester. -/
theorem auth_three_way_witness :
    check_burn_from
      { owner := 1, delegate := none, delegatedAmount := 0,
        amount := 0 } 5 10
      = .error (.err (.wrongTokenOwnerOrDelegate 1 5)) :=
  (auth_three_way _ 5 10).2.2 (by decide) (by decide)

/-- C10: when the holding's delegate equals the requester, authorization
compares the tokens only against the delegated allowance: it succeeds iff
tokens ≤ delegated_amount, and its outcome is invariant under changing the
holding balance — so it succeeds even when tokens > balance, and the
delegate branch takes precedence even when the requester is also the owner
(the owner-balance test is never reached). -/
theorem delegate_branch_ignores_balance (hold : TokenHolding)
    (requester : Identity) (tokens : Nat)
    (hd : hold.delegate = some requester) :
    (check_burn_from hold requester tokens = .ok () ↔
      tokens ≤ hold.delegatedAmount) ∧
    (∀ b : Nat, check_burn_from { hold with amount := b } requester tokens
      = check_burn_from hold requester tokens) := by
  obtain ⟨o, d, da, a⟩ := hold
  simp only at hd
  constructor
  · unfold check_burn_from
    simp only
    rw [if_pos hd]
    constructor
    · intro hok
      by_contra hn
      rw [if_neg hn] at hok
      exact absurd hok (by simp)
    · intro hle
      rw [if_pos hle]
  · intro b
    unfold check_burn_from
    simp only
    rw [if_pos hd, if_pos hd]

/-- C10 (witness): a delegate who is also the owner, with allowance 100 and
balance only 5, is authorized to burn 50. -/
theorem delegate_branch_ignores_balance_witness :
    check_burn_from
      { owner := 3, delegate := some 3, delegatedAmount := 100,
        amount := 5 } 3 50 = .ok () :=
  (delegate_branch_ignores_balance
    { owner := 3, delegate := some 3, delegatedAmount := 100, amount := 5 }
    3 50 rfl).1.mpr (by decide)

/-- When both gates pass, `process` is the calculation/settlement phase run
on the reconciled virtual supply. -/
theorem process_gates_pass {c : Ctx} {tokens : Nat}
    (hp : c.paused = false)
    (ha : check_burn_from c.burnFrom c.burnFromAuthority tokens = .ok ()) :
    process c tokens
      = processCalc c tokens (reconciledSupply c.lpSupply c.lpMintSupply) := by
  unfold process
  rw [hp, ha]
  rfl

/-- A paused pool fails immediately with the pause error. -/
theorem process_paused_err {c : Ctx} {tokens : Nat} (hp : c.paused = true) :
    process c tokens = .error (.err .paused) := by
  unfold process
  rw [hp]
  rfl

/-- A failed authorization propagates its error unchanged. -/
theorem process_auth_err {c : Ctx} {tokens : Nat} {e : Failure}
    (hp : c.paused = false)
    (ha : check_burn_from c.burnFrom c.burnFromAuthority tokens = .error e) :
    process c tokens = .error e := by
  unfold process
  rw [hp, ha]
  rfl

/-- A failing call leaves the observable state untouched. -/
theorem postOf_of_error {c : Ctx} {tokens : Nat} {e : Failure}
    (h : process c tokens = .error e) : postOf c tokens = c := by
  unfold postOf
  rw [h]

/-- C4: supply reconciliation runs before the proportional computation and
uses the actual mint supply read at request time: when the actual supply
exceeds the virtual one it only logs a warning, keeps the virtual supply
unchanged, and the operation proceeds (the drift is not an error); otherwise
the virtual supply is set to the actual supply. For every request passing
the pause and authorization gates, `process` continues into the calculation
phase with the reconciled supply as the divisor. -/
theorem reconcile_runs_first (v mint : Nat) (c : Ctx) (tokens : Nat) :
    (mint > v → reconciledSupply v mint = v) ∧
    (¬mint > v → reconciledSupply v mint = mint) ∧
    (c.paused = false →
      check_burn_from c.burnFrom c.burnFromAuthority tokens = .ok () →
      process c tokens
        = processCalc c tokens (reconciledSupply c.lpSupply c.lpMintSupply)) := by
  refine ⟨fun h => ?_, fun h => ?_, fun hp ha => process_gates_pass hp ha⟩
  · unfold reconciledSupply
    rw [if_pos h]
  · unfold reconciledSupply
    rw [if_neg h]

/-- C4 (witness): supply 1000 with actual 1500 stays 1000; with actual 900
it becomes 900; the example run enters the calculation with its reconciled
supply. -/
theorem reconcile_runs_first_witness :
    reconciledSupply 1000 1500 = 1000 ∧
    reconciledSupply 1000 900 = 900 ∧
    process exampleCtx 100
      = processCalc exampleCtx 100
          (reconciledSupply exampleCtx.lpSupply exampleCtx.lpMintSupply) :=
  ⟨(reconcile_runs_first 1000 1500 exampleCtx 100).1 (by decide),
   (reconcile_runs_first 1000 900 exampleCtx 100).2.1 (by decide),
   (reconcile_runs_first 1000 900 exampleCtx 100).2.2 rfl rfl⟩

/-- C5: for every call, successful or failing, the virtual LP supply after
the call is at most its value before: reconciliation can only lower it and
settlement subtracts the burned tokens. -/
theorem lp_supply_monotone (c : Ctx) (tokens : Nat) :
    (postOf c tokens).lpSupply ≤ c.lpSupply := by
  unfold postOf
  split
  next post evt hp =>
    obtain ⟨-, -, hcalc⟩ := process_ok_inv hp
    have hpost := (processCalc_ok_inv hcalc).2.2.2.2.2.2.2.2.2
    rw [hpost]
    unfold on_lp_burn
    exact le_trans (Nat.sub_le _ _) (reconciledSupply_le _ _)
  next e hp => exact le_refl _

/-- C1: for every request passing the pause and authorization gates, with
reconciled virtual supply S > 0 and the floor not above the sol-leg balance,
the computed payouts are `tokens * (sol_leg_balance - rent_exempt) / S` and
`tokens * msol_leg_balance / S`, both floor divisions by the same reconciled
supply; and in the spec's example pool (S = 1000, distributable base 500,
derivative balance 2000, min_withdraw 1, 1:1 rate), burning 100 tokens
succeeds with payouts 50 and 200 and post-state virtual supply 900. -/
theorem payouts_floor_formula (c : Ctx) (tokens : Nat)
    (hp : c.paused = false)
    (ha : check_burn_from c.burnFrom c.burnFromAuthority tokens = .ok ())
    (hr : c.rentExemptForTokenAcc ≤ c.solLegLamports)
    (hs : 0 < reconciledSupply c.lpSupply c.lpMintSupply) :
    computeOuts tokens c.solLegLamports c.rentExemptForTokenAcc
        c.msolLegAmount (reconciledSupply c.lpSupply c.lpMintSupply)
      = .ok (tokens * (c.solLegLamports - c.rentExemptForTokenAcc)
               / reconciledSupply c.lpSupply c.lpMintSupply,
             tokens * c.msolLegAmount
               / reconciledSupply c.lpSupply c.lpMintSupply) ∧
    (∃ post evt, process exampleCtx 100 = .ok (post, evt) ∧
      evt.sol_out_amount = 50 ∧ evt.msol_out_amount = 200 ∧
      post.lpSupply = 900) := by
  have hs' : reconciledSupply c.lpSupply c.lpMintSupply ≠ 0 :=
    Nat.pos_iff_ne_zero.mp hs
  constructor
  · unfold computeOuts checkedSub proportional
    rw [if_pos hr]
    simp [hs']
  · exact ⟨examplePost, exampleEvt, rfl, rfl, rfl, rfl⟩

/-- C1 (witness): in the example pool the formula yields the payouts
(50, 200) for 100 burned tokens. -/
theorem payouts_floor_formula_witness :
    computeOuts 100 exampleCtx.solLegLamports exampleCtx.rentExemptForTokenAcc
        exampleCtx.msolLegAmount
        (reconciledSupply exampleCtx.lpSupply exampleCtx.lpMintSupply)
      = .ok (50, 200) :=
  (payouts_floor_formula exampleCtx 100 rfl rfl (by decide) (by decide)).1

/-- C2: a request whose total value (base payout plus converted derivative
payout) is below `min_withdraw` fails with `WithdrawAmountIsTooLow` before
any transfer or burn, and a failing call — for this check as for the pause
and authorization gates — leaves reserve balances, the holding and the
virtual LP supply unchanged (`postOf` is the pre-state). -/
theorem rejection_has_no_effects (c : Ctx) (tokens : Nat) :
    (c.paused = true →
      process c tokens = .error (.err .paused) ∧ postOf c tokens = c) ∧
    (∀ e : Failure, c.paused = false →
      check_burn_from c.burnFrom c.burnFromAuthority tokens = .error e →
      process c tokens = .error e ∧ postOf c tokens = c) ∧
    (∀ solOut msolOut conv total : Nat, c.paused = false →
      check_burn_from c.burnFrom c.burnFromAuthority tokens = .ok () →
      computeOuts tokens c.solLegLamports c.rentExemptForTokenAcc
          c.msolLegAmount (reconciledSupply c.lpSupply c.lpMintSupply)
        = .ok (solOut, msolOut) →
      c.convert msolOut = some conv →
      checkedAdd solOut conv = some total →
      total < c.minWithdraw →
      process c tokens = .error (.err .withdrawAmountIsTooLow) ∧
        postOf c tokens = c) := by
  refine ⟨fun hp => ?_, fun e hp ha => ?_, ?_⟩
  · have h := @process_paused_err c tokens hp
    exact ⟨h, postOf_of_error h⟩
  · have h := process_auth_err hp ha
    exact ⟨h, postOf_of_error h⟩
  · intro solOut msolOut conv total hp ha hcomp hconv hadd hlt
    have h : process c tokens = .error (.err .withdrawAmountIsTooLow) := by
      rw [process_gates_pass hp ha]
      unfold processCalc
      rw [hcomp]
      simp [hconv, hadd, hlt]
    exact ⟨h, postOf_of_error h⟩

/-- C2 (witness): the example pool with `min_withdraw = 1000` rejects a
100-token burn (total value 250) with no state change. -/
theorem rejection_has_no_effects_witness :
    process { exampleCtx with minWithdraw := 1000 } 100
      = .error (.err .withdrawAmountIsTooLow) ∧
    postOf { exampleCtx with minWithdraw := 1000 } 100
      = { exampleCtx with minWithdraw := 1000 } :=
  (rejection_has_no_effects { exampleCtx with minWithdraw := 1000 } 100).2.2
    50 200 200 250 rfl rfl rfl rfl rfl (by decide)

/-- C6 (counterexample): with the rent-exempt floor 600 above the sol-leg
balance 500, the call aborts with the Rust panic raised by `.unwrap()` on
the failed `checked_sub` — not with a typed `ArithmeticUnderflow` error
returned to the caller (the error enum in `src` has no such variant). -/
theorem underflow_panic_cex :
    process { exampleCtx with rentExemptForTokenAcc := 600 } 10
      = .error Failure.panic := rfl

/-- C6 (amended): when the rent-exempt floor exceeds the sol-leg balance,
the distributable-base subtraction is checked (`checked_sub`, never
wrapping) and the operation aborts — but via the panic of `.unwrap()` on
the failed subtraction, not via an `ArithmeticUnderflow` error value
returned to the caller. -/
theorem underflow_checked_panic (c : Ctx) (tokens : Nat)
    (hp : c.paused = false)
    (ha : check_burn_from c.burnFrom c.burnFromAuthority tokens = .ok ())
    (hu : c.solLegLamports < c.rentExemptForTokenAcc) :
    process c tokens = .error Failure.panic := by
  rw [process_gates_pass hp ha]
  unfold processCalc computeOuts checkedSub
  rw [if_neg (by omega)]

/-- C6 (witness): the panic abort at floor 600 against balance 500. -/
theorem underflow_checked_panic_witness :
    process { exampleCtx with rentExemptForTokenAcc := 600 } 20
      = .error Failure.panic :=
  underflow_checked_panic { exampleCtx with rentExemptForTokenAcc := 600 }
    20 rfl rfl (by decide)

/-- C7: when the reconciled virtual supply is 0 (and the distributable-base
subtraction itself is defined), the proportional computation fails with
`DivisionByZeroSupply` and the call returns that error: no withdrawal is
possible from an empty pool. -/
theorem zero_supply_fails (c : Ctx) (tokens : Nat)
    (hp : c.paused = false)
    (ha : check_burn_from c.burnFrom c.burnFromAuthority tokens = .ok ())
    (hr : c.rentExemptForTokenAcc ≤ c.solLegLamports)
    (hz : reconciledSupply c.lpSupply c.lpMintSupply = 0) :
    process c tokens = .error (.err .divisionByZeroSupply) := by
  rw [process_gates_pass hp ha, hz]
  unfold processCalc computeOuts checkedSub proportional
  rw [if_pos hr]
  simp

/-- C7 (witness): the example pool emptied (virtual and actual supply 0)
rejects a 100-token burn with the zero-supply error. -/
theorem zero_supply_fails_witness :
    process { exampleCtx with lpSupply := 0, lpMintSupply := 0 } 100
      = .error (.err .divisionByZeroSupply) :=
  zero_supply_fails { exampleCtx with lpSupply := 0, lpMintSupply := 0 }
    100 rfl rfl (by decide) rfl

/-- C8: solvency — whenever the payout computation succeeds and the burned
tokens do not exceed the supply used as the divisor, the base payout is at
most the distributable base and the derivative payout at most the
derivative-leg balance. -/
theorem payouts_bounded
    (tokens solLeg rent msolLeg supply solOut msolOut : Nat)
    (h : computeOuts tokens solLeg rent msolLeg supply
      = .ok (solOut, msolOut))
    (ht : tokens ≤ supply) :
    solOut ≤ solLeg - rent ∧ msolOut ≤ msolLeg := by
  unfold computeOuts at h
  rcases hcs : checkedSub solLeg rent with _ | d
  · rw [hcs] at h
    simp at h
  · rw [hcs] at h
    unfold proportional at h
    by_cases hz : supply = 0
    · simp [hz] at h
    · simp [hz] at h
      obtain ⟨h1, h2⟩ := h
      have hd : d = solLeg - rent := by
        unfold checkedSub at hcs
        by_cases hb : rent ≤ solLeg
        · rw [if_pos hb] at hcs
          exact (Option.some.injEq _ _ ▸ hcs).symm
        · rw [if_neg hb] at hcs
          exact absurd hcs (by simp)
      have hsp : 0 < supply := Nat.pos_of_ne_zero hz
      constructor
      · rw [← h1, hd]
        calc tokens * (solLeg - rent) / supply
            ≤ supply * (solLeg - rent) / supply :=
              Nat.div_le_div_right (Nat.mul_le_mul_right _ ht)
          _ = solLeg - rent := Nat.mul_div_cancel_left _ hsp
      · rw [← h2]
        calc tokens * msolLeg / supply
            ≤ supply * msolLeg / supply :=
              Nat.div_le_div_right (Nat.mul_le_mul_right _ ht)
          _ = msolLeg := Nat.mul_div_cancel_left _ hsp

/-- C8 (witness): in the example pool (supply 1000) a 100-token burn pays
50 ≤ 500 of the base and 200 ≤ 2000 of the derivative. -/
theorem payouts_bounded_witness :
    50 ≤ 500 - 0 ∧ 200 ≤ 2000 :=
  payouts_bounded 100 500 0 2000 1000 50 200 rfl (by decide)

/-- C9: every successful call returns exactly one event whose snapshot
fields equal the pre-call sol-leg, msol-leg, user LP, user SOL, user mSOL
balances and the observed mint supply, whose `lp_burned` equals the
requested tokens, and whose output fields are exactly the computed payouts
of the calculation phase. -/
theorem event_snapshot (c : Ctx) (tokens : Nat) (post : Ctx)
    (evt : RemoveLiquidityEvent)
    (h : process c tokens = .ok (post, evt)) :
    evt.state = c.stateKey ∧
    evt.sol_leg_balance = c.solLegLamports ∧
    evt.msol_leg_balance = c.msolLegAmount ∧
    evt.user_lp_balance = c.burnFrom.amount ∧
    evt.user_sol_balance = c.userSolLamports ∧
    evt.user_msol_balance = c.userMsolAmount ∧
    evt.lp_mint_supply = c.lpMintSupply ∧
    evt.lp_burned = tokens ∧
    computeOuts tokens c.solLegLamports c.rentExemptForTokenAcc
        c.msolLegAmount (reconciledSupply c.lpSupply c.lpMintSupply)
      = .ok (evt.sol_out_amount, evt.msol_out_amount) := by
  obtain ⟨-, -, hcalc⟩ := process_ok_inv h
  obtain ⟨h1, h2, h3, h4, h5, h6, h7, h8, h9, -⟩ := processCalc_ok_inv hcalc
  exact ⟨h2, h3, h4, h5, h6, h7, h8, h9, h1⟩

/-- C9 (witness): the example run's event carries the pre-state snapshot,
the 100 burned tokens and the payouts (50, 200). -/
theorem event_snapshot_witness :
    exampleEvt.state = exampleCtx.stateKey ∧
    exampleEvt.sol_leg_balance = exampleCtx.solLegLamports ∧
    exampleEvt.msol_leg_balance = exampleCtx.msolLegAmount ∧
    exampleEvt.user_lp_balance = exampleCtx.burnFrom.amount ∧
    exampleEvt.user_sol_balance = exampleCtx.userSolLamports ∧
    exampleEvt.user_msol_balance = exampleCtx.userMsolAmount ∧
    exampleEvt.lp_mint_supply = exampleCtx.lpMintSupply ∧
    exampleEvt.lp_burned = 100 ∧
    computeOuts 100 exampleCtx.solLegLamports
        exampleCtx.rentExemptForTokenAcc exampleCtx.msolLegAmount
        (reconciledSupply exampleCtx.lpSupply exampleCtx.lpMintSupply)
      = .ok (exampleEvt.sol_out_amount, exampleEvt.msol_out_amount) :=
  event_snapshot exampleCtx 100 examplePost exampleEvt rfl

end RemoveLiquidity
